import Mathlib

/-!
Verification development for the English-assistant agent backend.

We give a shallow embedding of the LLM request/response orchestration core:
the JSON value model and a model of the standard-library JSON decoder
(`json.loads`), the Python string helpers the agents use (`strip`,
`startswith`, `endswith`, slicing), the structured-result parsing stages of
`VocabularyAgent.explain_word`, `VocabularyAgent.get_words_by_topic`,
`GrammarAgent.correct_text` and
`ReadingComprehensionAgent.generate_comprehension_questions`, the Gemini
completion client `BaseAgent._call_gemini_api` (streaming and
non-streaming), the chunk accumulation loops, `VocabularyAgent.run`, and
the `SpeakingPracticeAgent` conversation state machine.

Python conventions are embedded explicitly: fallible code returns
`Except PyError _` where an uncaught exception can escape, optional values
are `Option`, Python truthiness is spelled out at each use site.
-/

/-- Kinds of Python exceptions that can escape the modelled code paths. -/
inductive PyError where
  | unboundLocal (name : String)
  | typeError
deriving Repr, DecidableEq

/-- JSON values as produced by the `json` module: objects keep insertion
order and number literals are kept verbatim (the agents never inspect
numeric values, only structure). -/
inductive Json where
  | null
  | bool (b : Bool)
  | num (lit : String)
  | str (s : String)
  | arr (elems : List Json)
  | obj (entries : List (String × Json))
deriving Repr

/-- Lookup of a key in a JSON object, as Python `d.get(k)` / `k in d`. -/
def jlookup (kvs : List (String × Json)) (k : String) : Option Json :=
  (kvs.find? (fun p => p.1 == k)).map (fun p => p.2)

/-- Insertion into a JSON object under construction: Python dicts keep the
first-insertion position of a key and overwrite its value. -/
def insertKV (kvs : List (String × Json)) (k : String) (v : Json) :
    List (String × Json) :=
  if kvs.any (fun p => p.1 == k) then
    kvs.map (fun p => if p.1 == k then (k, v) else p)
  else
    kvs ++ [(k, v)]

/-- Whitespace skipped by the JSON decoder between tokens (JSON spec). -/
def isJsonWs (c : Char) : Bool :=
  c == ' ' || c == '\t' || c == '\n' || c == '\r'

/-- Whitespace stripped by Python `str.strip()` (ASCII range). -/
def isPyWs (c : Char) : Bool :=
  c == ' ' || c == '\t' || c == '\n' || c == '\r' || c == '\x0b' || c == '\x0c'

def skipJsonWs (cs : List Char) : List Char :=
  cs.dropWhile isJsonWs

/-- Value of a hexadecimal digit, for string escapes. -/
def hexVal (c : Char) : Option Nat :=
  if '0' ≤ c ∧ c ≤ '9' then some (c.toNat - '0'.toNat)
  else if 'a' ≤ c ∧ c ≤ 'f' then some (c.toNat - 'a'.toNat + 10)
  else if 'A' ≤ c ∧ c ≤ 'F' then some (c.toNat - 'A'.toNat + 10)
  else none

/-- Greedy digit span. -/
def takeDigits (cs : List Char) : List Char × List Char :=
  (cs.takeWhile Char.isDigit, cs.dropWhile Char.isDigit)

/-- Parse a JSON number literal (the `json` module regular expression
`-?(0|[1-9]\d*)(\.\d+)?([eE][+-]?\d+)?`), returning the literal matched and
the rest of the input.  Also accepts the `NaN`/`Infinity` extensions that
`json.loads` accepts by default. -/
def parseNum (cs : List Char) : Option (Json × List Char) :=
  match cs with
  | 'N' :: 'a' :: 'N' :: rest => some (.num "NaN", rest)
  | 'I' :: 'n' :: 'f' :: 'i' :: 'n' :: 'i' :: 't' :: 'y' :: rest =>
      some (.num "Infinity", rest)
  | '-' :: 'I' :: 'n' :: 'f' :: 'i' :: 'n' :: 'i' :: 't' :: 'y' :: rest =>
      some (.num "-Infinity", rest)
  | _ =>
    let (sign, cs1) :=
      match cs with
      | '-' :: t => (['-'], t)
      | _ => ([], cs)
    match cs1 with
    | [] => none
    | d :: _ =>
      if d.isDigit then
        let (intPart, cs2) :=
          if d = '0' then ([d], cs1.drop 1) else takeDigits cs1
        let (fracPart, cs3) :=
          match cs2 with
          | '.' :: t =>
            let (ds, r) := takeDigits t
            if ds.isEmpty then ([], cs2) else ('.' :: ds, r)
          | _ => ([], cs2)
        let (expPart, cs4) :=
          match cs3 with
          | e :: t =>
            if e = 'e' ∨ e = 'E' then
              let (esign, t2) :=
                match t with
                | '+' :: t3 => (['+'], t3)
                | '-' :: t3 => (['-'], t3)
                | _ => ([], t)
              let (ds, r) := takeDigits t2
              if ds.isEmpty then ([], cs3) else (e :: (esign ++ ds), r)
            else ([], cs3)
          | [] => ([], cs3)
        some (.num (String.mk (sign ++ intPart ++ fracPart ++ expPart)), cs4)
      else none

/-- Parser modes: a JSON value, the body of a string literal, the element
list of an array after the first `[`, or the entry list of an object after
the first `\x7b`; the accumulators hold what has been consumed so far. -/
inductive PMode where
  | value
  | strBody (acc : List Char)
  | arrElems (acc : List Json)
  | objEntries (acc : List (String × Json))

/-- Fuel-indexed core of the JSON decoder (model of `json.loads`).  The
fuel only bounds recursion depth; `jsonParse` supplies enough for any
input. -/
def pv : Nat → PMode → List Char → Option (Json × List Char)
  | 0, _, _ => none
  | f + 1, .value, cs =>
    match skipJsonWs cs with
    | [] => none
    | 'n' :: 'u' :: 'l' :: 'l' :: rest => some (.null, rest)
    | 't' :: 'r' :: 'u' :: 'e' :: rest => some (.bool true, rest)
    | 'f' :: 'a' :: 'l' :: 's' :: 'e' :: rest => some (.bool false, rest)
    | '"' :: rest => pv f (.strBody []) rest
    | '[' :: rest =>
      (match skipJsonWs rest with
       | ']' :: rest2 => some (.arr [], rest2)
       | _ => pv f (.arrElems []) rest)
    | '\x7b' :: rest =>
      (match skipJsonWs rest with
       | '\x7d' :: rest2 => some (.obj [], rest2)
       | _ => pv f (.objEntries []) rest)
    | c :: rest => parseNum (c :: rest)
  | f + 1, .strBody acc, cs =>
    match cs with
    | [] => none
    | '"' :: rest => some (.str (String.mk acc.reverse), rest)
    | '\\' :: esc =>
      (match esc with
       | '"' :: r => pv f (.strBody ('"' :: acc)) r
       | '\\' :: r => pv f (.strBody ('\\' :: acc)) r
       | '/' :: r => pv f (.strBody ('/' :: acc)) r
       | 'b' :: r => pv f (.strBody ('\x08' :: acc)) r
       | 'f' :: r => pv f (.strBody ('\x0c' :: acc)) r
       | 'n' :: r => pv f (.strBody ('\n' :: acc)) r
       | 'r' :: r => pv f (.strBody ('\r' :: acc)) r
       | 't' :: r => pv f (.strBody ('\t' :: acc)) r
       | 'u' :: a :: b :: c :: d :: r =>
         (match hexVal a, hexVal b, hexVal c, hexVal d with
          | some ha, some hb, some hc, some hd =>
            pv f (.strBody (Char.ofNat (ha * 4096 + hb * 256 + hc * 16 + hd) :: acc)) r
          | _, _, _, _ => none)
       | _ => none)
    | c :: rest =>
      if c.toNat < 32 then none else pv f (.strBody (c :: acc)) rest
  | f + 1, .arrElems acc, cs =>
    match pv f .value cs with
    | some (v, rest) =>
      (match skipJsonWs rest with
       | ',' :: rest2 => pv f (.arrElems (v :: acc)) rest2
       | ']' :: rest2 => some (.arr (v :: acc).reverse, rest2)
       | _ => none)
    | none => none
  | f + 1, .objEntries acc, cs =>
    match skipJsonWs cs with
    | '"' :: rest =>
      (match pv f (.strBody []) rest with
       | some (.str k, rest2) =>
         (match skipJsonWs rest2 with
          | ':' :: rest3 =>
            (match pv f .value rest3 with
             | some (v, rest4) =>
               (match skipJsonWs rest4 with
                | ',' :: rest5 => pv f (.objEntries (insertKV acc k v)) rest5
                | '\x7d' :: rest5 => some (.obj (insertKV acc k v), rest5)
                | _ => none)
             | none => none)
          | _ => none)
       | _ => none)
    | _ => none

/-- Model of `json.loads`: decode one JSON document, allowing surrounding
whitespace and nothing else.  `Except.error` carries the decoder
diagnostic (stands for the message of the raised `JSONDecodeError`). -/
def jsonParse (s : String) : Except String Json :=
  match pv (2 * s.length + 4) .value s.data with
  | some (v, rest) =>
    if (skipJsonWs rest).isEmpty then .ok v else .error "Extra data"
  | none => .error "Expecting value"

/-! ### Python string helpers used by the agents -/

/-- Left part of Python `str.strip()`. -/
def lstripL (cs : List Char) : List Char := cs.dropWhile isPyWs

/-- Right part of Python `str.strip()`. -/
def rstripL (cs : List Char) : List Char := (cs.reverse.dropWhile isPyWs).reverse

/-- Python `s.strip()`. -/
def pyStrip (s : String) : String := String.mk (rstripL (lstripL s.data))

/-- Python `s.startswith(pre)`. -/
def pyStartsWith (s pre : String) : Bool := pre.data.isPrefixOf s.data

/-- Python `s.endswith(suf)`. -/
def pyEndsWith (s suf : String) : Bool := suf.data.isSuffixOf s.data

/-- Python `s[n:]` for `0 ≤ n`. -/
def pyDrop (s : String) (n : Nat) : String := String.mk (s.data.drop n)

/-- Python `s[:-n]` for `0 < n ≤ len(s)`. -/
def pyDropRight (s : String) (n : Nat) : String :=
  String.mk (s.data.take (s.data.length - n))

/-- Python `s[:n]` for `0 ≤ n`. -/
def pyTake (s : String) (n : Nat) : String := String.mk (s.data.take n)

/-- Python `needle in hay` on strings (substring test). -/
def containsSubstr (hay needle : String) : Bool :=
  hay.data.tails.any (fun t => needle.data.isPrefixOf t)

/-- Python `"".join(parts)`. -/
def concatAll (parts : List String) : String :=
  parts.foldl (fun a b => a ++ b) ""

/-- Python `"k" in l` for a list `l` of JSON values: the string compares
equal only to string elements. -/
def strInList (k : String) (l : List Json) : Bool :=
  l.any (fun j => match j with | .str s => s == k | _ => false)

/-- Field access on a JSON object result, `none` when the value is not an
object or lacks the key. -/
def getField (j : Json) (k : String) : Option Json :=
  match j with
  | .obj kvs => jlookup kvs k
  | _ => none

/-! ### Structured-result parsing stages of the agents

Each agent method first accumulates the backend chunks into one string;
the functions below model what the method does with that accumulated
string (the network part is modelled separately by the completion
client). -/

/-- Fence stripping in `GrammarAgent.correct_text` (grammar_agent.py:81-84)
and `StudyPlanAgent.generate_study_plan` (studyplan.py:280-283): remove a
leading ```` ```json ```` opener and a trailing ```` ``` ```` closer. -/
def fenceStripBoth (raw : String) : String :=
  let r1 := if pyStartsWith (pyStrip raw) "```json" then pyDrop (pyStrip raw) 7 else raw
  if pyEndsWith (pyStrip r1) "```" then pyDropRight (pyStrip r1) 3 else r1

/-- Fence stripping in `VocabularyAgent.explain_word`
(vocabulary_agent.py:139-141) and `VocabularyAgent.get_words_by_topic`
(vocabulary_agent.py:185-187): only a trailing ```` ``` ```` closer is
removed, then the result is stripped. -/
def fenceStripClose (raw : String) : String :=
  pyStrip (if pyEndsWith (pyStrip raw) "```" then pyDropRight (pyStrip raw) 3 else raw)

/-- Python `all(k in result for k in keys)` where `result` is an arbitrary
decoded JSON value; raises `TypeError` when `result` is not a container
(grammar_agent.py:88). -/
def allKeysIn (result : Json) (keys : List String) : Except PyError Bool :=
  match result with
  | .obj kvs => .ok (keys.all (fun k => (jlookup kvs k).isSome))
  | .arr l => .ok (keys.all (fun k => strInList k l))
  | .str s => .ok (keys.all (fun k => containsSubstr s k))
  | _ => .error .typeError

/-- Fallback object of `GrammarAgent.correct_text`
(grammar_agent.py:91-95 and 101-105). -/
def correctionsFallback (text msg : String) : Json :=
  Json.obj [("original_text", .str text), ("corrected_text", .str msg),
            ("corrections", .arr [])]

/-- Parsing stage of `GrammarAgent.correct_text` (grammar_agent.py:78-112)
applied to the accumulated backend response.  With `explain_errors` the
response is fence-stripped and JSON-decoded; a decode failure or missing
required keys produce a fallback object.  The key check itself can raise
`TypeError` (uncaught in the source) when the decoded value is not a
container.  `correctionsDecode` is the decode-and-validate stage applied
to the fence-stripped text. -/
def correctionsDecode (text r : String) : Except PyError Json :=
  match jsonParse r with
  | .error _ =>
    .ok (correctionsFallback text
      ("Error: LLM did not return valid JSON. Raw response: " ++ r))
  | .ok result =>
    match allKeysIn result ["original_text", "corrected_text", "corrections"] with
    | .error e => .error e
    | .ok true => .ok result
    | .ok false =>
      .ok (correctionsFallback text
        ("Error: Could not parse corrections from LLM. Raw response: " ++ r))

def correct_text (text : String) (explain_errors : Bool)
    (raw_response : String) : Except PyError Json :=
  if explain_errors then
    correctionsDecode text (fenceStripBoth raw_response)
  else
    .ok (Json.obj [("original_text", .str text),
                   ("corrected_text", .str (pyStrip raw_response)),
                   ("corrections", .arr [])])

/-- Parsing stage of `VocabularyAgent.explain_word`
(vocabulary_agent.py:137-164) applied to the accumulated backend
response: strip the trailing fence closer, decode, and return the decoded
value as-is, or an error object embedding the first 200 characters of the
cleaned response.  The decode exception is caught; no exception
escapes. -/
def explain_word (word : String) (response : String) : Json :=
  let response_str := fenceStripClose response
  match jsonParse response_str with
  | .ok v => v
  | .error e =>
    Json.obj [("error", .str "Không thể phân tích giải thích từ vựng từ AI."),
              ("word", .str word),
              ("details", .str ("Lỗi JSON: " ++ e ++ ". Dữ liệu nhận được: "
                                ++ pyTake response_str 200 ++ "..."))]

/-- Python check `"words" not in data or not isinstance(data["words"], list)`
(vocabulary_agent.py:191); `TypeError` (caught by the generic handler in
the source) when `data` is not a container. -/
def wordsKeyCheck (v : Json) : Except PyError Bool :=
  match v with
  | .obj kvs =>
    (match jlookup kvs "words" with
     | none => .ok false
     | some (.arr _) => .ok true
     | some _ => .ok false)
  | .arr l => if strInList "words" l then .error .typeError else .ok false
  | .str s => if containsSubstr s "words" then .error .typeError else .ok false
  | _ => .error .typeError

/-- Parsing stage of `VocabularyAgent.get_words_by_topic`
(vocabulary_agent.py:184-213) applied to the accumulated backend
response.  All exceptions are caught in the source: decode failure and
validation failure each map to an error object. -/
def get_words_by_topic (topic : String) (response : String) : Json :=
  let response_str := fenceStripClose response
  match jsonParse response_str with
  | .error e =>
    Json.obj [("error", .str "Không thể phân tích danh sách từ vựng từ AI."),
              ("topic", .str topic),
              ("details", .str ("Lỗi JSON: " ++ e ++ ". Dữ liệu nhận được: "
                                ++ pyTake response_str 200 ++ "..."))]
  | .ok v =>
    match wordsKeyCheck v with
    | .ok true => v
    | .ok false =>
      Json.obj [("error", .str "Cấu trúc JSON không hợp lệ cho danh sách từ vựng."),
                ("topic", .str topic),
                ("details", .str ("Thiếu key \x27words\x27 hoặc \x27words\x27 không phải là list. Dữ liệu nhận được: "
                                  ++ pyTake response_str 200 ++ "..."))]
    | .error _ =>
      Json.obj [("error", .str "Lỗi không mong muốn khi lấy danh sách từ vựng."),
                ("topic", .str topic),
                ("details", .str "TypeError")]

/-- Model of `ReadingComprehensionAgent.generate_comprehension_questions`
(reading_agent.py:68-107) after chunk accumulation.  Line 72 binds
`response_str`, but line 75 reads the distinct local `raw_response`,
which is assigned only at lines 76-77; Python therefore raises
`UnboundLocalError` before the `try` block is entered, for every
accumulated response. -/
def generate_comprehension_questions (chunks : List String) :
    Except PyError Json :=
  let _response_str := concatAll chunks
  Except.error (PyError.unboundLocal "raw_response")

/-- Model of the `command == "generate_comprehension_questions"` arm of
`ReadingComprehensionAgent.run` (reading_agent.py:138-144): a falsy
`passage` returns an error object, otherwise the call is delegated to
`generate_comprehension_questions` and any exception it raises
propagates. -/
def reading_run_generate_questions (passage : Option String)
    (chunks : List String) : Except PyError Json :=
  match passage with
  | none =>
    .ok (Json.obj [("error", .str "Lỗi: \x27passage\x27 là bắt buộc cho lệnh \x27generate_comprehension_questions\x27.")])
  | some p =>
    if p = "" then
      .ok (Json.obj [("error", .str "Lỗi: \x27passage\x27 là bắt buộc cho lệnh \x27generate_comprehension_questions\x27.")])
    else
      generate_comprehension_questions chunks

/-! ### Completion client: `BaseAgent._call_gemini_api` (studyplan.py:44-152) -/

/-- Python truthiness of the decoded JSON values the client inspects. -/
def jtruthy (j : Json) : Bool :=
  match j with
  | .null => false
  | .bool b => b
  | .str s => s ≠ ""
  | .arr l => ¬ l.isEmpty
  | .obj kvs => ¬ kvs.isEmpty
  | .num lit =>
    ¬ ((lit.data.takeWhile (fun c => c ≠ 'e' ∧ c ≠ 'E')).all
        (fun c => ¬ c.isDigit ∨ c = '0'))

/-- Elements yielded by the `_call_gemini_api` generator.  The source
yields plain strings on every path; `text` marks the yields of
backend-provided text (studyplan.py:107 and 134) and `error` the yields
of the fixed error messages on the failure paths (studyplan.py:71, 129,
138, 148, 152). -/
inductive GenChunk where
  | text (v : Json)
  | error (msg : String)
deriving Repr

def apiKeyMissingMsg : String := "Lỗi: API key chưa được cấu hình."
def requestErrorMsg : String := "Có lỗi xảy ra khi gọi API."
def statusErrorMsg (code : Nat) : String :=
  "Có lỗi HTTP " ++ toString code ++ " xảy ra khi gọi API."
def envelopeErrorMsg : String := "Lỗi: Cấu trúc response không mong đợi từ Gemini."
def genericErrorMsg : String := "Đã có lỗi không xác định khi gọi API."

/-- Extraction of `data["candidates"][0]["content"]["parts"][0]["text"]`
guarded by the truthiness/instance checks of studyplan.py:119-127.  A
failed check yields the envelope error message; a step that would raise in
Python (attribute or type error on a value of the wrong shape) yields the
generic error message, as the generic `except` handler does. -/
def extractTextE (j : Json) : Except String Json :=
  match j with
  | .obj kvs =>
    (match jlookup kvs "candidates" with
     | some (.arr (c0 :: _)) =>
       (match c0 with
        | .obj c0kvs =>
          (match jlookup c0kvs "content" with
           | some content =>
             if jtruthy content then
               match content with
               | .obj ckvs =>
                 (match jlookup ckvs "parts" with
                  | some (.arr (p0 :: _)) =>
                    (match p0 with
                     | .obj pkvs =>
                       (match jlookup pkvs "text" with
                        | some v => .ok v
                        | none => .error envelopeErrorMsg)
                     | .str s =>
                       if containsSubstr s "text" then .error genericErrorMsg
                       else .error envelopeErrorMsg
                     | .arr l =>
                       if strInList "text" l then .error genericErrorMsg
                       else .error envelopeErrorMsg
                     | _ => .error genericErrorMsg)
                  | some _ => .error envelopeErrorMsg
                  | none => .error envelopeErrorMsg)
               | _ => .error genericErrorMsg
             else .error envelopeErrorMsg
           | none => .error envelopeErrorMsg)
        | _ => .error genericErrorMsg)
     | some _ => .error envelopeErrorMsg
     | none => .error envelopeErrorMsg)
  | _ => .error genericErrorMsg

/-- Outcome of the one outbound HTTP round trip (non-streaming). -/
inductive NetResult where
  | requestError
  | statusError (code : Nat)
  | okBadJson
  | ok (body : Json)

/-- Outcome of the outbound HTTP round trip in streaming mode: either a
transport/status failure or the list of raw lines received. -/
inductive StreamNetResult where
  | requestError
  | statusError (code : Nat)
  | ok (lines : List String)

/-- Python truthiness of the optional `GOOGLE_API_KEY` environment value:
absent or empty means `not API_KEY` (studyplan.py:69). -/
def keyPresent (apiKey : Option String) : Bool :=
  match apiKey with
  | none => false
  | some s => s ≠ ""

/-- Non-streaming branch of `_call_gemini_api` (studyplan.py:69-72 and
113-152): the generator as the list of its yields. -/
def callGeminiNonStream (_prompt : String) (apiKey : Option String)
    (net : NetResult) : List GenChunk :=
  if keyPresent apiKey then
    match net with
    | .requestError => [.error requestErrorMsg]
    | .statusError c => [.error (statusErrorMsg c)]
    | .okBadJson => [.error genericErrorMsg]
    | .ok body =>
      match extractTextE body with
      | .ok t => [.text t]
      | .error m => [.error m]
  else [.error apiKeyMissingMsg]

/-- Line cleaning of the streaming branch (studyplan.py:86-91): strip a
`data: ` event prefix, surrounding whitespace and one trailing comma. -/
def streamCleanLine (line : String) : String :=
  let line1 := if pyStartsWith line "data: " then pyDrop line 6 else line
  let clean := pyStrip line1
  if pyEndsWith clean "," then pyDropRight clean 1 else clean

/-- Per-line decoding step: a line that is blank, or cleans to nothing,
fails JSON decoding, or lacks the expected nested path is skipped
(`none`); every exception inside the loop body is caught and also results
in a skip. -/
def decodeStreamLine (line : String) : Option Json :=
  if pyStrip line = "" then none
  else
    let clean := streamCleanLine line
    if clean = "" then none
    else
      match jsonParse clean with
      | .error _ => none
      | .ok j =>
        match extractTextE j with
        | .ok t => some t
        | .error _ => none

/-- The streaming loop over received lines: each line contributes at most
one text fragment; bad lines are skipped without ending the stream. -/
def streamDecode (lines : List String) : List Json :=
  lines.filterMap decodeStreamLine

/-- Streaming branch of `_call_gemini_api` (studyplan.py:69-72 and
76-112): the generator as the list of its yields. -/
def callGeminiStream (_prompt : String) (apiKey : Option String)
    (net : StreamNetResult) : List GenChunk :=
  if keyPresent apiKey then
    match net with
    | .requestError => [.error requestErrorMsg]
    | .statusError c => [.error (statusErrorMsg c)]
    | .ok lines => (streamDecode lines).map GenChunk.text
  else [.error apiKeyMissingMsg]

/-! ### Chunk accumulation loops of the agents -/

/-- Accumulation loop of `VocabularyAgent.run` (vocabulary_agent.py:72-75):
`full_response += chunk` guarded by `if chunk:`. -/
def vocabAccumulate (chunks : List String) : String :=
  chunks.foldl (fun acc c => if c ≠ "" then acc ++ c else acc) ""

/-- Accumulation loop of `GrammarAgent.correct_text`
(grammar_agent.py:73-76): append every chunk, then `"".join`. -/
def grammarAccumulate (chunks : List String) : String :=
  concatAll chunks

/-! ### `VocabularyAgent._clean_content` and `VocabularyAgent.run` -/

/-- Scan for the closing delimiter of a non-greedy pair pattern
`D(.*?)D`: returns the shortest group (which cannot span a newline, since
`.` does not match `\n`) and the input after the closer. -/
def findCloser (close : List Char) : List Char → Option (List Char × List Char)
  | [] => none
  | c :: rest =>
    if close.isPrefixOf (c :: rest) then some ([], (c :: rest).drop close.length)
    else if c = '\n' then none
    else
      match findCloser close rest with
      | some (grp, after) => some (c :: grp, after)
      | none => none

/-- Model of `re.sub(r'D(.*?)D', r'\1', s)` for a literal delimiter `D`:
leftmost-first, non-greedy, replaced regions are not rescanned.  Fuel is
an upper bound on steps; each step consumes at least one character. -/
def subPairsAux (delim : List Char) : Nat → List Char → List Char
  | 0, cs => cs
  | f + 1, cs =>
    match cs with
    | [] => []
    | c :: rest =>
      if delim.isPrefixOf (c :: rest) then
        match findCloser delim ((c :: rest).drop delim.length) with
        | some (grp, after) => grp ++ subPairsAux delim f after
        | none => c :: subPairsAux delim f rest
      else c :: subPairsAux delim f rest

/-- String-level wrapper for the pair-removal substitution. -/
def reSubPair (delim : String) (s : String) : String :=
  String.mk (subPairsAux delim.data (s.data.length + 1) s.data)

/-- Index of the last `\n` inside a whitespace run, for the greedy
`\s*` of `re.sub(r'\n\s*\n', '\n\n', s)`. -/
def lastNewlineIdx (l : List Char) : Option Nat :=
  match l.reverse.findIdx? (fun c => c = '\n') with
  | some k => some (l.length - 1 - k)
  | none => none

/-- Model of `re.sub(r'\n\s*\n', '\n\n', s)`: at a `\n` whose following
whitespace run contains another `\n`, the greedy `\s*` extends to the last
such `\n`; the match is replaced by two newlines and scanning resumes
after it. -/
def collapseBlankAux : Nat → List Char → List Char
  | 0, cs => cs
  | f + 1, cs =>
    match cs with
    | [] => []
    | c :: rest =>
      if c = '\n' then
        match lastNewlineIdx (rest.takeWhile isPyWs) with
        | some j => '\n' :: '\n' :: collapseBlankAux f (rest.drop (j + 1))
        | none => c :: collapseBlankAux f rest
      else c :: collapseBlankAux f rest

/-- Model of `VocabularyAgent._clean_content` (vocabulary_agent.py:19-34):
remove `**`, `*`, `_` and backtick emphasis pairs, turn literal `\n`
sequences into newlines, collapse blank runs, and strip. -/
def clean_content (content : String) : String :=
  let c1 := reSubPair "**" content
  let c2 := reSubPair "*" c1
  let c3 := reSubPair "_" c2
  let c4 := reSubPair "`" c3
  let c5 := c4.replace "\\n" "\n"
  let c6 := String.mk (collapseBlankAux (c5.data.length + 1) c5.data)
  pyStrip c6

/-- Model of `VocabularyAgent.run` (vocabulary_agent.py:36-106) given the
chunk sequence the backend would yield.  The boolean records whether the
completion backend was invoked (the `self.ask` loop was entered); a blank
`user_input` returns the error object before any prompt is built. -/
def vocab_run (user_input : String) (chunks : List String) : Json × Bool :=
  if user_input = "" ∨ pyStrip user_input = "" then
    (Json.obj [("error", .str "Yêu cầu không được để trống"),
               ("details", .str "Vui lòng nhập yêu cầu của bạn")], false)
  else
    let full_response := vocabAccumulate chunks
    if full_response = "" then
      (Json.obj [("error", .str "Không nhận được phản hồi từ AI"),
                 ("details", .str "Vui lòng thử lại sau")], true)
    else
      (Json.obj [("content", .str (clean_content full_response)),
                 ("type", .str "text")], true)

/-! ### `SpeakingPracticeAgent`: conversation history and `run` -/

/-- One conversation turn, Python dict `{"role": ..., "content": ...}`. -/
structure Turn where
  role : String
  content : String
deriving Repr, DecidableEq

/-- Role label used when rendering the transcript
(speaking_agent.py:144). -/
def roleLabel (m : Turn) : String :=
  if m.role == "user" then "User" else "AI Assistant"

/-- One rendered transcript line (speaking_agent.py:145). -/
def turnLine (m : Turn) : String := roleLabel m ++ ": " ++ m.content

/-- Python `"\n".join`. -/
def joinLines : List String → String
  | [] => ""
  | [x] => x
  | x :: xs => x ++ "\n" ++ joinLines xs

/-- Model of `SpeakingPracticeAgent._format_conversation_history_for_prompt`
(speaking_agent.py:140-146): the newline-joined transcript of the WHOLE
history, one labelled line per turn. -/
def format_conversation_history_for_prompt (hist : List Turn) : String :=
  joinLines (hist.map turnLine)

/-- `MAX_HISTORY_TURNS` (speaking_agent.py:214). -/
def MAX_HISTORY_TURNS : Nat := 10

/-- The slice `conversation_history[-(MAX_HISTORY_TURNS * 2):]` computed
at speaking_agent.py:215 (and then left unused by the prompt
construction). -/
def recent_history (hist : List Turn) : List Turn :=
  hist.drop (hist.length - MAX_HISTORY_TURNS * 2)

/-- The fixed system prompt of `SpeakingPracticeAgent.run`
(speaking_agent.py:202-210). -/
def speakingSystemPrompt : String :=
  "You are a friendly and patient English speaking practice partner. "
  ++ "Your goal is to help the user practice speaking English by having a natural conversation. "
  ++ "Listen carefully to what the user says. Respond naturally and try to keep the conversation flowing. "
  ++ "If appropriate, ask follow-up questions. You can also suggest topics if the conversation lulls or if the user asks. "
  ++ "Keep your responses relatively concise and suitable for a spoken conversation. Avoid very long paragraphs. "
  ++ "If the user makes small grammar mistakes, don\x27t correct them too strictly unless they ask or it severely hinders understanding. Focus on fluency and conversation."
  ++ "If the user says something like \x27I don\x27t know\x27 or seems stuck, gently encourage them or offer a new direction/topic."

/-- The prompt sent to the backend by `SpeakingPracticeAgent.run`
(speaking_agent.py:253-257): it embeds the transcript of the full
conversation history. -/
def prompt_for_gemini (hist : List Turn) : String :=
  speakingSystemPrompt ++ "\n\nHere is the conversation so far:\n"
  ++ format_conversation_history_for_prompt hist
  ++ "\n\nNow, it\x27s your turn to respond as the AI Assistant. Please continue the conversation naturally."
  ++ "AI Assistant:"

/-- Mutable state of a `SpeakingPracticeAgent` relevant to the history
claims (speaking_agent.py:27-50).  The greeting and readiness flags are
set at construction and never reassigned. -/
structure SpeakState where
  history : List Turn
  initialGreeting : Option String
  whisperReady : Bool
  ttsReady : Bool
deriving Repr, DecidableEq

/-- Python truthiness of the optional greeting string. -/
def optTruthy (o : Option String) : Bool :=
  match o with
  | none => false
  | some s => s ≠ ""

/-- Agent state after `__init__` (speaking_agent.py:44-47): the greeting,
when truthy, becomes the first history turn. -/
def initSpeakState (greeting : Option String) (wr tr : Bool) : SpeakState :=
  { history := if optTruthy greeting then [⟨"model", greeting.getD ""⟩] else []
    initialGreeting := greeting
    whisperReady := wr
    ttsReady := tr }

/-- Model of `SpeakingPracticeAgent.text_to_speech` outcome: `None` when
the engine is unavailable, otherwise the externally produced path. -/
def ttsResult (st : SpeakState) (oracle : Option String) : Option String :=
  if st.ttsReady then oracle else none

/-- Model of `SpeakingPracticeAgent.run` (speaking_agent.py:148-278).
Inputs are the two optional call arguments; the oracle values are the
speech-to-text result, the backend chunk sequence, and the
text-to-speech path.  Returns the new state and the `(text, audio)`
pair the method returns. -/
def speak_run (st : SpeakState) (userAudioPath userTextInput : Option String)
    (stt : Option String) (gemini : List String) (tts : Option String) :
    SpeakState × (String × Option String) :=
  if ¬ st.whisperReady ∧ optTruthy userAudioPath then
    (st, ("Lỗi: Dịch vụ nhận dạng giọng nói chưa sẵn sàng.", none))
  else if optTruthy userAudioPath ∧ ¬ optTruthy stt then
    -- STT failure branch (speaking_agent.py:163-174): reply recorded as a
    -- model turn.
    let ai :=
      if ¬ st.history.any (fun m => m.role == "user") ∧ optTruthy st.initialGreeting then
        st.initialGreeting.getD ""
      else "Sorry, I couldn\x27t understand what you said. Could you please try again?"
    ({ st with history := st.history ++ [⟨"model", ai⟩] }, (ai, ttsResult st tts))
  else
    -- user_input_text after the input stage (speaking_agent.py:159-177)
    let u : Option String :=
      if optTruthy userAudioPath then stt
      else if optTruthy userTextInput then some (pyStrip (userTextInput.getD ""))
      else none
    if ¬ optTruthy u ∧ st.history.isEmpty then
      -- first call with no input (speaking_agent.py:179-186); no append
      if optTruthy st.initialGreeting then
        (st, (st.initialGreeting.getD "", ttsResult st tts))
      else (st, ("Hello! How can I help you practice speaking today?", none))
    else if ¬ optTruthy u then
      -- input-less call with existing history (speaking_agent.py:187-194)
      let lastAi :=
        match st.history.getLast? with
        | some m => if m.role == "model" then m.content else "How can I assist you?"
        | none => "How can I assist you?"
      (st, (lastAi, ttsResult st tts))
    else
      -- append the user turn (speaking_agent.py:197-198)
      let hist1 := st.history ++ [⟨"user", u.getD ""⟩]
      let greetingOnly : Bool :=
        (hist1.length == 1)
        && (match hist1.head? with | some m => m.role == "model" | none => false)
        && optTruthy st.initialGreeting
      let ai0 :=
        if greetingOnly then
          st.initialGreeting.getD ""  -- dead in practice (speaking_agent.py:243-249)
        else pyStrip (concatAll gemini)
      let ai := if ai0 = "" then "I\x27m sorry, I didn\x27t quite catch that. Could you say it again?" else ai0
      ({ st with history := hist1 ++ [⟨"model", ai⟩] }, (ai, ttsResult st tts))

/-- States reachable from a freshly constructed agent by any sequence of
`run` calls. -/
inductive SpeakReachable : SpeakState → Prop where
  | init (greeting : Option String) (wr tr : Bool) :
      SpeakReachable (initSpeakState greeting wr tr)
  | step (st : SpeakState) (a t stt : Option String) (g : List String)
      (tts : Option String) (h : SpeakReachable st) :
      SpeakReachable (speak_run st a t stt g tts).1

/-- A concrete conversation of 21 turns: the default initial greeting
followed by twenty alternating turns.  One turn more than the
`MAX_HISTORY_TURNS * 2` window. -/
def hist21 : List Turn :=
  ⟨"model", "Hello! What would you like to talk about today?"⟩ ::
    (List.range 20).map
      (fun i => if i % 2 == 0 then ⟨"user", "turn" ++ toString i⟩
                else ⟨"model", "turn" ++ toString i⟩)

/-! ### Helper lemmas -/

theorem length_dropWhile_le (p : Char → Bool) (l : List Char) :
    (l.dropWhile p).length ≤ l.length := by
  induction l with
  | nil => simp
  | cons a t ih =>
    rw [List.dropWhile_cons]
    split
    · exact Nat.le_trans ih (by simp only [List.length_cons]; omega)
    · simp

theorem isPrefixOf_append_self (l m : List Char) : l.isPrefixOf (l ++ m) = true := by
  induction l with
  | nil => simp [List.isPrefixOf]
  | cons a t ih => simp [List.isPrefixOf, ih]

theorem dropWhile_cons_false (p : Char → Bool) (a : Char) (l : List Char)
    (h : p a = false) : (a :: l).dropWhile p = a :: l := by
  rw [List.dropWhile_cons, h]; simp

theorem head?_append_left {α : Type} (l m : List α) (h : l ≠ []) :
    (l ++ m).head? = l.head? := by
  cases l with
  | nil => exact absurd rfl h
  | cons a t => rfl

theorem concatAll_cons (c : String) (cs : List String) :
    concatAll (c :: cs) = c ++ concatAll cs := by
  have key : ∀ (l : List String) (a : String),
      l.foldl (fun x y => x ++ y) a = a ++ concatAll l := by
    intro l
    induction l with
    | nil => intro a; simp [concatAll, String.append_empty]
    | cons b t ih =>
      intro a
      simp only [concatAll, List.foldl_cons] at *
      rw [ih (a ++ b), ih ("" ++ b), String.empty_append, String.append_assoc]
  simpa [concatAll] using key cs c

theorem vocabAccumulate_eq_concatAll (C : List String) :
    vocabAccumulate C = concatAll C := by
  have key : ∀ (l : List String) (a : String),
      l.foldl (fun acc c => if c ≠ "" then acc ++ c else acc) a = a ++ concatAll l := by
    intro l
    induction l with
    | nil => intro a; simp [concatAll, String.append_empty]
    | cons b t ih =>
      intro a
      simp only [List.foldl_cons]
      by_cases hb : b = ""
      · subst hb
        simp only [ne_eq, not_true_eq_false, if_false, ih a, concatAll_cons,
          String.empty_append]
      · simp only [ne_eq, hb, not_false_eq_true, if_true, ih (a ++ b),
          concatAll_cons, String.append_assoc]
  simpa [vocabAccumulate] using key C ""

/-! ### Claim theorems -/

/-- C10: for every `user_input` that is empty or whitespace-only,
`VocabularyAgent.run` returns the error object (carrying `error` and
`details` fields) without invoking the completion backend (the returned
flag records that the `self.ask` loop was never entered). -/
theorem vocab_run_blank_input_no_backend (input : String) (chunks : List String)
    (h : input = "" ∨ pyStrip input = "") :
    vocab_run input chunks =
      (Json.obj [("error", .str "Yêu cầu không được để trống"),
                 ("details", .str "Vui lòng nhập yêu cầu của bạn")], false)
    ∧ (vocab_run input chunks).2 = false
    ∧ (getField (vocab_run input chunks).1 "error").isSome = true
    ∧ (getField (vocab_run input chunks).1 "details").isSome = true := by
  have he : vocab_run input chunks =
      (Json.obj [("error", .str "Yêu cầu không được để trống"),
                 ("details", .str "Vui lòng nhập yêu cầu của bạn")], false) := by
    unfold vocab_run
    rw [if_pos h]
  refine ⟨he, ?_, ?_, ?_⟩ <;> rw [he] <;> rfl

theorem vocab_run_blank_input_no_backend_witness :
    ("   " = "" ∨ pyStrip "   " = "")
    ∧ (vocab_run "   " ["some chunk"]).2 = false := by
  have h : ("   " : String) = "" ∨ pyStrip "   " = "" := Or.inr (by decide)
  exact ⟨h, (vocab_run_blank_input_no_backend "   " ["some chunk"] h).2.1⟩

/-- C1 (code bug): for every non-empty passage,
`ReadingComprehensionAgent.run` with command
`generate_comprehension_questions` raises `UnboundLocalError` (the local
`raw_response` is read at reading_agent.py:75 before its first
assignment) instead of returning a value: the error escapes the agent
boundary, for every backend chunk sequence. -/
theorem reading_run_generate_questions_raises (p : String) (hp : p ≠ "")
    (chunks : List String) :
    reading_run_generate_questions (some p) chunks =
      Except.error (PyError.unboundLocal "raw_response") := by
  simp only [reading_run_generate_questions, generate_comprehension_questions]
  rw [if_neg hp]

theorem reading_run_generate_questions_raises_witness :
    ("Some short passage." ≠ "")
    ∧ reading_run_generate_questions (some "Some short passage.")
        ["This is not a valid JSON for questions."] =
      Except.error (PyError.unboundLocal "raw_response") :=
  ⟨by decide,
   reading_run_generate_questions_raises "Some short passage." (by decide)
     ["This is not a valid JSON for questions."]⟩

/-- C8: accumulating the streamed chunks in arrival order is plain
concatenation: the accumulation loops of `VocabularyAgent.run` and
`GrammarAgent.correct_text` both reconstruct exactly `concat(C)`, so any
splitting of a full response into chunks is reassembled identically. -/
theorem accumulate_eq_concat :
    (∀ C : List String, vocabAccumulate C = concatAll C)
    ∧ (∀ C : List String, grammarAccumulate C = concatAll C)
    ∧ ∀ (s : String) (parts : List String), concatAll parts = s →
        vocabAccumulate parts = s ∧ grammarAccumulate parts = s := by
  refine ⟨vocabAccumulate_eq_concatAll, fun C => rfl, ?_⟩
  intro s parts h
  exact ⟨(vocabAccumulate_eq_concatAll parts).trans h, h⟩

theorem accumulate_eq_concat_witness :
    concatAll ["spl", "", "it up"] = "split up"
    ∧ vocabAccumulate ["spl", "", "it up"] = "split up"
    ∧ grammarAccumulate ["spl", "", "it up"] = "split up" :=
  ⟨by decide,
   (accumulate_eq_concat.2.2 "split up" ["spl", "", "it up"] (by decide)).1,
   (accumulate_eq_concat.2.2 "split up" ["spl", "", "it up"] (by decide)).2⟩

/-- C3 (code bug): on the word-list path a decoded object missing the
required key yields the incomplete-schema error object naming `words` and
never the decoded value; but on the question-generation path the claimed
behaviour is unreachable: `generate_comprehension_questions` raises
`UnboundLocalError` for every accumulated text, in particular for
`\x7b"wrong_key": []\x7d`, before any parsing happens. -/
theorem missing_key_paths :
    (∀ chunks, generate_comprehension_questions chunks =
        Except.error (PyError.unboundLocal "raw_response"))
    ∧ (∀ (topic raw : String) (kvs : List (String × Json)),
        jsonParse (fenceStripClose raw) = .ok (Json.obj kvs) →
        jlookup kvs "words" = none →
        get_words_by_topic topic raw =
          Json.obj [("error", .str "Cấu trúc JSON không hợp lệ cho danh sách từ vựng."),
                    ("topic", .str topic),
                    ("details", .str ("Thiếu key \x27words\x27 hoặc \x27words\x27 không phải là list. Dữ liệu nhận được: "
                                      ++ pyTake (fenceStripClose raw) 200 ++ "..."))]) := by
  constructor
  · intro chunks; rfl
  · intro topic raw kvs h1 h2
    simp only [get_words_by_topic, h1, wordsKeyCheck, h2]

theorem missing_key_paths_witness :
    generate_comprehension_questions ["\x7b\"wrong_key\": []\x7d"] =
      Except.error (PyError.unboundLocal "raw_response")
    ∧ get_words_by_topic "technology" "\x7b\"wrong_key\": []\x7d" =
        Json.obj [("error", .str "Cấu trúc JSON không hợp lệ cho danh sách từ vựng."),
                  ("topic", .str "technology"),
                  ("details", .str ("Thiếu key \x27words\x27 hoặc \x27words\x27 không phải là list. Dữ liệu nhận được: "
                                    ++ pyTake (fenceStripClose "\x7b\"wrong_key\": []\x7d") 200 ++ "..."))] :=
  ⟨missing_key_paths.1 ["\x7b\"wrong_key\": []\x7d"],
   missing_key_paths.2 "technology" "\x7b\"wrong_key\": []\x7d"
     [("wrong_key", Json.arr [])] rfl rfl⟩

/-- C4 (counterexample): for the accumulated text
`This is not valid JSON.` the parse stage of `explain_word` does return a
diagnostic error object, but it has no `raw_text` field at all, so no
`raw_text` field equal to the original input exists. -/
theorem malformed_raw_text_counterexample :
    ¬ (getField (explain_word "ubiquitous" "This is not valid JSON.") "raw_text"
        = some (Json.str "This is not valid JSON."))
    ∧ (getField (explain_word "ubiquitous" "This is not valid JSON.") "error").isSome = true :=
  ⟨fun h => absurd (congrArg Option.isNone h) (by decide), by decide⟩

/-- C4 (amended): for every accumulated text whose (fence-stripped) form
fails JSON decoding, `explain_word` returns a malformed-output error
object that embeds the cleaned input truncated to 200 characters inside
its `details` message — with no `raw_text` field — and
`GrammarAgent.correct_text` returns a fallback object embedding the
cleaned input in `corrected_text`; in both paths the decode exception is
caught and nothing propagates. -/
theorem malformed_output_diagnostic (w text raw e e2 : String)
    (h1 : jsonParse (fenceStripClose raw) = .error e)
    (h2 : jsonParse (fenceStripBoth raw) = .error e2) :
    explain_word w raw =
      Json.obj [("error", .str "Không thể phân tích giải thích từ vựng từ AI."),
                ("word", .str w),
                ("details", .str ("Lỗi JSON: " ++ e ++ ". Dữ liệu nhận được: "
                                  ++ pyTake (fenceStripClose raw) 200 ++ "..."))]
    ∧ getField (explain_word w raw) "raw_text" = none
    ∧ correct_text text true raw =
        .ok (correctionsFallback text
          ("Error: LLM did not return valid JSON. Raw response: " ++ fenceStripBoth raw)) := by
  have hw : explain_word w raw =
      Json.obj [("error", .str "Không thể phân tích giải thích từ vựng từ AI."),
                ("word", .str w),
                ("details", .str ("Lỗi JSON: " ++ e ++ ". Dữ liệu nhận được: "
                                  ++ pyTake (fenceStripClose raw) 200 ++ "..."))] := by
    simp only [explain_word, h1]
  refine ⟨hw, ?_, ?_⟩
  · rw [hw]; rfl
  · simp only [correct_text, if_true, correctionsDecode, h2]

theorem malformed_output_diagnostic_witness :
    jsonParse (fenceStripClose "This is not valid JSON.") = .error "Expecting value"
    ∧ jsonParse (fenceStripBoth "This is not valid JSON.") = .error "Expecting value"
    ∧ getField (explain_word "ephemeral" "This is not valid JSON.") "raw_text" = none :=
  ⟨rfl, rfl,
   (malformed_output_diagnostic "ephemeral" "She go to school."
      "This is not valid JSON." "Expecting value" "Expecting value" rfl rfl).2.1⟩

/-- C5: the streaming chunk decoder skips every line that is blank, fails
JSON decoding, or lacks the `candidates[0].content.parts[0].text` path,
and keeps decoding the remaining lines; on the three-line example input
exactly the one fragment `ok` is produced. -/
theorem stream_bad_lines_skipped :
    (∀ l : String, pyStrip l = "" → decodeStreamLine l = none)
    ∧ (∀ (l e : String), jsonParse (streamCleanLine l) = .error e →
        decodeStreamLine l = none)
    ∧ (∀ (l : String) (j : Json) (e : String),
        jsonParse (streamCleanLine l) = .ok j → extractTextE j = .error e →
        decodeStreamLine l = none)
    ∧ (∀ (l : String) (rest : List String), decodeStreamLine l = none →
        streamDecode (l :: rest) = streamDecode rest)
    ∧ streamDecode ["", "\x7bbad json",
        "\x7b\"candidates\":[\x7b\"content\":\x7b\"parts\":[\x7b\"text\":\"ok\"\x7d]\x7d\x7d]\x7d"]
        = [Json.str "ok"] := by
  refine ⟨?_, ?_, ?_, ?_, rfl⟩
  · intro l h
    simp only [decodeStreamLine]
    rw [if_pos h]
  · intro l e h
    by_cases h0 : pyStrip l = ""
    · simp only [decodeStreamLine]; rw [if_pos h0]
    · simp only [decodeStreamLine]; rw [if_neg h0]
      by_cases h1 : streamCleanLine l = ""
      · rw [if_pos h1]
      · rw [if_neg h1, h]
  · intro l j e hok herr
    by_cases h0 : pyStrip l = ""
    · simp only [decodeStreamLine]; rw [if_pos h0]
    · simp only [decodeStreamLine]; rw [if_neg h0]
      by_cases h1 : streamCleanLine l = ""
      · rw [if_pos h1]
      · rw [if_neg h1]
        simp only [hok, herr]
  · intro l rest h
    simp [streamDecode, List.filterMap_cons, h]

theorem stream_bad_lines_skipped_witness :
    pyStrip "" = "" ∧ decodeStreamLine "" = none
    ∧ jsonParse (streamCleanLine "\x7bbad json") = .error "Expecting value"
    ∧ decodeStreamLine "\x7bbad json" = none
    ∧ streamDecode ["\x7bbad json", "", "x"] = streamDecode ["", "x"] :=
  ⟨rfl, stream_bad_lines_skipped.1 "" rfl, rfl,
   stream_bad_lines_skipped.2.1 "\x7bbad json" "Expecting value" rfl,
   stream_bad_lines_skipped.2.2.2.1 "\x7bbad json" ["", "x"]
     (stream_bad_lines_skipped.2.1 "\x7bbad json" "Expecting value" rfl)⟩

/-- C7: in non-streaming mode the completion client yields exactly one
text chunk carrying the extracted full text, or a single terminal error
element and no text chunk; each failure condition (missing credential,
connection error, non-2xx status, undecodable body, unexpected envelope)
produces its error element. -/
theorem nonstreaming_single_chunk_or_error (prompt : String)
    (key : Option String) (net : NetResult) :
    ((∃ t, callGeminiNonStream prompt key net = [GenChunk.text t])
      ∨ (∃ m, callGeminiNonStream prompt key net = [GenChunk.error m]))
    ∧ (keyPresent key = false →
        callGeminiNonStream prompt key net = [GenChunk.error apiKeyMissingMsg])
    ∧ (keyPresent key = true →
        callGeminiNonStream prompt key NetResult.requestError
          = [GenChunk.error requestErrorMsg])
    ∧ (keyPresent key = true → ∀ c,
        callGeminiNonStream prompt key (NetResult.statusError c)
          = [GenChunk.error (statusErrorMsg c)])
    ∧ (keyPresent key = true →
        callGeminiNonStream prompt key NetResult.okBadJson
          = [GenChunk.error genericErrorMsg])
    ∧ (keyPresent key = true → ∀ (body : Json) (m : String),
        net = NetResult.ok body → extractTextE body = .error m →
        callGeminiNonStream prompt key net = [GenChunk.error m]) := by
  by_cases hk : keyPresent key = true
  · refine ⟨?_, fun hfalse => absurd hk (by rw [hfalse]; exact Bool.noConfusion),
      fun _ => by simp only [callGeminiNonStream]; rw [if_pos hk],
      fun _ c => by simp only [callGeminiNonStream]; rw [if_pos hk],
      fun _ => by simp only [callGeminiNonStream]; rw [if_pos hk],
      fun _ body m hbody hext => ?_⟩
    · cases net with
      | requestError =>
        exact Or.inr ⟨requestErrorMsg, by simp only [callGeminiNonStream]; rw [if_pos hk]⟩
      | statusError c =>
        exact Or.inr ⟨statusErrorMsg c, by simp only [callGeminiNonStream]; rw [if_pos hk]⟩
      | okBadJson =>
        exact Or.inr ⟨genericErrorMsg, by simp only [callGeminiNonStream]; rw [if_pos hk]⟩
      | ok body =>
        cases hext : extractTextE body with
        | ok t =>
          exact Or.inl ⟨t, by simp only [callGeminiNonStream]; rw [if_pos hk, hext]⟩
        | error m =>
          exact Or.inr ⟨m, by simp only [callGeminiNonStream]; rw [if_pos hk, hext]⟩
    · subst hbody
      simp only [callGeminiNonStream]
      rw [if_pos hk, hext]
  · have hk' : keyPresent key = false := by
      cases h : keyPresent key
      · rfl
      · exact absurd h hk
    have hbase : ∀ n, callGeminiNonStream prompt key n = [GenChunk.error apiKeyMissingMsg] := by
      intro n; simp only [callGeminiNonStream]; rw [if_neg hk]
    exact ⟨Or.inr ⟨apiKeyMissingMsg, hbase net⟩,
      fun _ => hbase net,
      fun h => absurd h hk,
      fun h => absurd h hk,
      fun h => absurd h hk,
      fun h => absurd h hk⟩

theorem nonstreaming_single_chunk_or_error_witness :
    keyPresent (some "k") = true
    ∧ callGeminiNonStream "explain: present perfect" (some "k") NetResult.requestError
        = [GenChunk.error requestErrorMsg]
    ∧ callGeminiNonStream "explain: present perfect" none NetResult.requestError
        = [GenChunk.error apiKeyMissingMsg] :=
  ⟨rfl,
   (nonstreaming_single_chunk_or_error "explain: present perfect" (some "k")
      NetResult.requestError).2.2.1 rfl,
   (nonstreaming_single_chunk_or_error "explain: present perfect" none
      NetResult.requestError).2.1 rfl⟩

/-- C2 (counterexample): wrapping the valid JSON document `\x7b\x7d` in a
code fence (opener ```` ```json ````, closer ```` ``` ````) changes the
result of `VocabularyAgent.explain_word`, which strips only the trailing
closer: the fenced input produces a decode-error object while the
unfenced input parses to the empty object. -/
theorem fence_roundtrip_counterexample :
    explain_word "w" ("```json" ++ "\x7b\x7d" ++ "```") ≠ explain_word "w" "\x7b\x7d"
    ∧ explain_word "w" "\x7b\x7d" = Json.obj []
    ∧ (getField (explain_word "w" ("```json" ++ "\x7b\x7d" ++ "```")) "error").isSome = true :=
  ⟨fun h => absurd (congrArg (fun j => (getField j "error").isSome) h) (by decide),
   rfl, by decide⟩

theorem correct_text_true (text raw : String) :
    correct_text text true raw = correctionsDecode text (fenceStripBoth raw) := by
  simp only [correct_text, if_true]

theorem lstripL_eq_self (l : List Char)
    (h : ∀ a, l.head? = some a → isPyWs a = false) : lstripL l = l := by
  cases l with
  | nil => rfl
  | cons a t => exact dropWhile_cons_false isPyWs a t (h a rfl)

theorem rstripL_eq_self (l : List Char)
    (h : ∀ a, l.reverse.head? = some a → isPyWs a = false) : rstripL l = l :=
  calc (l.reverse.dropWhile isPyWs).reverse = (lstripL l.reverse).reverse := rfl
    _ = l.reverse.reverse := by rw [lstripL_eq_self l.reverse h]
    _ = l := List.reverse_reverse l

theorem jsonParse_ok_data_ne_nil (s : String) (v : Json)
    (h : jsonParse s = .ok v) : s.data ≠ [] := by
  intro hd
  have hs : s = ⟨[]⟩ := by cases s with | mk d => simp_all
  rw [hs] at h
  have hemp : jsonParse ⟨[]⟩ = .error "Expecting value" := rfl
  rw [hemp] at h
  exact Except.noConfusion h

/-- C2 (amended): `GrammarAgent.correct_text` strips both the
```` ```json ```` opener and the ```` ``` ```` closer, so for every
whitespace-trimmed valid JSON object document that is not itself
fence-affixed and contains the required keys, parsing the fenced text and
parsing the unfenced text return the same `Ok` result.  (For
`VocabularyAgent.explain_word`, which strips only the closer, the
round trip fails; see the counterexample.) -/
theorem fence_roundtrip_grammar (text s : String) (kvs : List (String × Json))
    (h1 : jsonParse s = .ok (Json.obj kvs))
    (hl : lstripL s.data = s.data)
    (hr : rstripL s.data = s.data)
    (h2 : pyStartsWith s "```json" = false)
    (h3 : pyEndsWith s "```" = false)
    (h4 : (["original_text", "corrected_text", "corrections"].all
            (fun k => (jlookup kvs k).isSome)) = true) :
    correct_text text true ("```json" ++ s ++ "```") = .ok (Json.obj kvs)
    ∧ correct_text text true s = .ok (Json.obj kvs) := by
  -- basic facts about s
  have hstrip : pyStrip s = s := by
    show String.mk (rstripL (lstripL s.data)) = s
    rw [hl, hr]
  have hne : s.data ≠ [] := jsonParse_ok_data_ne_nil s (Json.obj kvs) h1
  have hheadws : ∀ a, s.data.head? = some a → isPyWs a = false := by
    intro a ha
    cases hd : s.data with
    | nil => exact absurd hd hne
    | cons b t =>
      rw [hd] at ha
      have hb : b = a := by simpa using ha
      subst hb
      by_cases hpb : isPyWs b = true
      · exfalso
        have hds : lstripL (b :: t) = t.dropWhile isPyWs := by
          simp [lstripL, List.dropWhile_cons, hpb]
        rw [hd] at hl
        rw [hl] at hds
        have hlen := length_dropWhile_le isPyWs t
        rw [← hds] at hlen
        simp at hlen
      · cases hv : isPyWs b
        · rfl
        · exact absurd hv hpb
  -- the fenced string and its pieces
  have hwdata : ("```json" ++ s ++ "```").data
      = "```json".data ++ (s.data ++ "```".data) := by
    rw [String.data_append, String.data_append, List.append_assoc]
  have hopenhead : ∀ a, ("```json".data ++ (s.data ++ "```".data)).head? = some a →
      isPyWs a = false := by
    intro a ha
    rw [head?_append_left _ _ (by decide)] at ha
    rw [show ("```json".data).head? = some '`' from rfl] at ha
    injection ha with hae
    rw [← hae]
    rfl
  have hcloselast : ∀ a, ("```json".data ++ (s.data ++ "```".data)).reverse.head? = some a →
      isPyWs a = false := by
    intro a ha
    rw [List.reverse_append, List.reverse_append] at ha
    rw [head?_append_left ("```".data.reverse ++ s.data.reverse) _ (by simp)] at ha
    rw [head?_append_left ("```".data.reverse) _ (by decide)] at ha
    rw [show (("```".data).reverse).head? = some '`' from rfl] at ha
    injection ha with hae
    rw [← hae]
    rfl
  -- strip is the identity on the fenced string
  have hwstrip : pyStrip ("```json" ++ s ++ "```") = ("```json" ++ s ++ "```") := by
    show String.mk (rstripL (lstripL ("```json" ++ s ++ "```").data))
      = ("```json" ++ s ++ "```")
    rw [hwdata, lstripL_eq_self _ hopenhead, rstripL_eq_self _ hcloselast, ← hwdata]
  -- the opener is recognized
  have hwstarts : pyStartsWith ("```json" ++ s ++ "```") "```json" = true := by
    show ("```json".data).isPrefixOf ("```json" ++ s ++ "```").data = true
    rw [hwdata]
    exact isPrefixOf_append_self _ _
  -- dropping the opener
  have hdrop : pyDrop ("```json" ++ s ++ "```") 7 = String.mk (s.data ++ "```".data) := by
    show String.mk (("```json" ++ s ++ "```").data.drop 7) = String.mk (s.data ++ "```".data)
    rw [hwdata]
    have h7 : ("```json".data).length = 7 := rfl
    rw [← h7, List.drop_left]
  -- strip is the identity on the remainder
  have hmidhead : ∀ a, (s.data ++ "```".data).head? = some a → isPyWs a = false := by
    intro a ha
    rw [head?_append_left _ _ hne] at ha
    exact hheadws a ha
  have hmidlast : ∀ a, (s.data ++ "```".data).reverse.head? = some a →
      isPyWs a = false := by
    intro a ha
    rw [List.reverse_append] at ha
    rw [head?_append_left ("```".data.reverse) _ (by decide)] at ha
    rw [show (("```".data).reverse).head? = some '`' from rfl] at ha
    injection ha with hae
    rw [← hae]
    rfl
  have hmidstrip : pyStrip (String.mk (s.data ++ "```".data))
      = String.mk (s.data ++ "```".data) := by
    show String.mk (rstripL (lstripL (s.data ++ "```".data)))
      = String.mk (s.data ++ "```".data)
    rw [lstripL_eq_self _ hmidhead, rstripL_eq_self _ hmidlast]
  -- the closer is recognized on the remainder
  have hmidends : pyEndsWith (String.mk (s.data ++ "```".data)) "```" = true := by
    show (("```".data).reverse).isPrefixOf (s.data ++ "```".data).reverse = true
    rw [List.reverse_append]
    exact isPrefixOf_append_self _ _
  -- dropping the closer restores s
  have hdropr : pyDropRight (String.mk (s.data ++ "```".data)) 3 = s := by
    show String.mk ((s.data ++ "```".data).take ((s.data ++ "```".data).length - 3)) = s
    have hlen : (s.data ++ "```".data).length - 3 = s.data.length := by
      rw [List.length_append, show ("```".data).length = 3 from rfl]
      omega
    rw [hlen, List.take_left]
  -- the fence-stripping composite
  have hfence : fenceStripBoth ("```json" ++ s ++ "```") = s := by
    simp only [fenceStripBoth, hwstrip, hwstarts, if_true, hdrop, hmidstrip,
      hmidends, hdropr]
  have hplain : fenceStripBoth s = s := by
    simp only [fenceStripBoth, hstrip, h2, h3, Bool.false_eq_true, if_false]
  constructor
  · rw [correct_text_true, hfence]
    simp only [correctionsDecode, h1, allKeysIn, h4]
  · rw [correct_text_true, hplain]
    simp only [correctionsDecode, h1, allKeysIn, h4]

theorem fence_roundtrip_grammar_witness :
    jsonParse "\x7b\"original_text\": \"a\", \"corrected_text\": \"b\", \"corrections\": []\x7d"
      = .ok (Json.obj [("original_text", .str "a"), ("corrected_text", .str "b"),
                       ("corrections", .arr [])])
    ∧ correct_text "She go to school." true
        ("```json" ++ "\x7b\"original_text\": \"a\", \"corrected_text\": \"b\", \"corrections\": []\x7d" ++ "```")
      = .ok (Json.obj [("original_text", .str "a"), ("corrected_text", .str "b"),
                       ("corrections", .arr [])])
    ∧ correct_text "She go to school." true
        "\x7b\"original_text\": \"a\", \"corrected_text\": \"b\", \"corrections\": []\x7d"
      = .ok (Json.obj [("original_text", .str "a"), ("corrected_text", .str "b"),
                       ("corrections", .arr [])]) :=
  ⟨rfl,
   (fence_roundtrip_grammar "She go to school."
      "\x7b\"original_text\": \"a\", \"corrected_text\": \"b\", \"corrections\": []\x7d"
      [("original_text", .str "a"), ("corrected_text", .str "b"), ("corrections", .arr [])]
      rfl rfl rfl rfl rfl rfl).1,
   (fence_roundtrip_grammar "She go to school."
      "\x7b\"original_text\": \"a\", \"corrected_text\": \"b\", \"corrections\": []\x7d"
      [("original_text", .str "a"), ("corrected_text", .str "b"), ("corrections", .arr [])]
      rfl rfl rfl rfl rfl rfl).2⟩

/-- C6 (counterexample): with 21 turns in the history — one more than the
`MAX_HISTORY_TURNS * 2` window — the transcript rendered for the prompt
differs from the windowed transcript and still begins with the oldest
turn. -/
theorem full_history_in_prompt_counterexample :
    format_conversation_history_for_prompt hist21
      ≠ format_conversation_history_for_prompt (recent_history hist21)
    ∧ pyStartsWith (format_conversation_history_for_prompt hist21)
        "AI Assistant: Hello! What would you like to talk about today?" = true
    ∧ hist21.length = 21 ∧ MAX_HISTORY_TURNS * 2 = 20 :=
  ⟨by decide, by decide, by decide, by decide⟩

theorem joinLines_length_lt (a b : List String) (ha : a ≠ []) (hb : b ≠ []) :
    (joinLines b).length < (joinLines (a ++ b)).length := by
  induction a with
  | nil => exact absurd rfl ha
  | cons x xs ih =>
    cases xs with
    | nil =>
      cases b with
      | nil => exact absurd rfl hb
      | cons y ys =>
        show (joinLines (y :: ys)).length < (x ++ "\n" ++ joinLines (y :: ys)).length
        rw [String.length_append, String.length_append]
        have h1 : ("\n" : String).length = 1 := rfl
        omega
    | cons x2 xs2 =>
      have ihx := ih (by simp)
      show (joinLines b).length < (x ++ "\n" ++ joinLines ((x2 :: xs2) ++ b)).length
      rw [String.length_append, String.length_append]
      have h1 : ("\n" : String).length = 1 := rfl
      omega

theorem append_append_singleton {α : Type} (l : List α) (x y : α) :
    l ++ [x] ++ [y] = l ++ [x, y] := by simp

/-- C6 (amended): the prompt built by `SpeakingPracticeAgent.run` embeds
the transcript of the FULL conversation history (the transcript is an
infix of the prompt text); the `recent_history` slice is computed but
unused, so whenever the history is longer than the
`MAX_HISTORY_TURNS * 2` window the rendered transcript differs from the
windowed one — older turns do appear. -/
theorem full_history_in_prompt :
    (∀ hist : List Turn,
      List.IsInfix (format_conversation_history_for_prompt hist).data
        (prompt_for_gemini hist).data)
    ∧ (∀ hist : List Turn, 20 < hist.length →
        format_conversation_history_for_prompt hist
          ≠ format_conversation_history_for_prompt (recent_history hist)) := by
  constructor
  · intro hist
    refine ⟨(speakingSystemPrompt ++ "\n\nHere is the conversation so far:\n").data,
      ("\n\nNow, it\x27s your turn to respond as the AI Assistant. Please continue the conversation naturally."
        ++ "AI Assistant:").data, ?_⟩
    simp [prompt_for_gemini, String.data_append, List.append_assoc]
  · intro hist h20 hcon
    have hsplit : hist = hist.take (hist.length - 20) ++ hist.drop (hist.length - 20) :=
      (List.take_append_drop _ hist).symm
    have hrh : recent_history hist = hist.drop (hist.length - 20) := rfl
    have hta : hist.take (hist.length - 20) ≠ [] := by
      have : (hist.take (hist.length - 20)).length = hist.length - 20 := by
        rw [List.length_take]
        omega
      intro hnil
      rw [hnil] at this
      simp at this
      omega
    have htb : hist.drop (hist.length - 20) ≠ [] := by
      have : (hist.drop (hist.length - 20)).length = 20 := by
        rw [List.length_drop]
        omega
      intro hnil
      rw [hnil] at this
      simp at this
    have hmap : hist.map turnLine
        = (hist.take (hist.length - 20)).map turnLine
          ++ (hist.drop (hist.length - 20)).map turnLine := by
      rw [← List.map_append, ← hsplit]
    have hlt := joinLines_length_lt
      ((hist.take (hist.length - 20)).map turnLine)
      ((hist.drop (hist.length - 20)).map turnLine)
      (by simpa using hta) (by simpa using htb)
    rw [← hmap] at hlt
    have hlen := congrArg String.length hcon
    simp only [format_conversation_history_for_prompt, hrh] at hlen
    omega

theorem full_history_in_prompt_witness :
    (20 < hist21.length)
    ∧ format_conversation_history_for_prompt hist21
        ≠ format_conversation_history_for_prompt (recent_history hist21) :=
  ⟨by decide, full_history_in_prompt.2 hist21 (by decide)⟩

theorem speak_run_history_step (st : SpeakState) (a t stt : Option String)
    (g : List String) (tts : Option String) :
    (∃ new, (speak_run st a t stt g tts).1.history = st.history ++ new)
    ∧ (speak_run st a t stt g tts).1.initialGreeting = st.initialGreeting := by
  simp only [speak_run]
  repeat' split
  all_goals
    first
      | exact ⟨⟨[], (List.append_nil _).symm⟩, rfl⟩
      | exact ⟨⟨[_], rfl⟩, rfl⟩
      | exact ⟨⟨_, append_append_singleton st.history _ _⟩, rfl⟩

theorem speak_reachable_invariant (st : SpeakState) (h : SpeakReachable st) :
    optTruthy st.initialGreeting = true →
    st.history ≠ [] ∧ st.history.head? = some ⟨"model", st.initialGreeting.getD ""⟩ := by
  induction h with
  | init g wr tr =>
    intro hg
    simp only [initSpeakState] at hg ⊢
    rw [if_pos hg]
    exact ⟨by simp, rfl⟩
  | step st a t stt g tts hst ih =>
    intro hg
    obtain ⟨⟨new, hnew⟩, hgreet⟩ := speak_run_history_step st a t stt g tts
    rw [hgreet] at hg
    obtain ⟨hne, hhead⟩ := ih hg
    constructor
    · rw [hnew]
      intro hcon
      exact hne (List.append_eq_nil.mp hcon).1
    · rw [hnew, head?_append_left _ _ hne, hgreet]
      exact hhead

/-- C9: the conversation history of `SpeakingPracticeAgent` is
append-only — every `run` invocation, on every branch, leaves the
existing turns in place and at most appends at the end — and in every
reachable state with a configured (truthy) initial greeting, the greeting
is the first turn of the history. -/
theorem history_append_only_and_greeting_first :
    (∀ (st : SpeakState) (a t stt : Option String) (g : List String)
        (tts : Option String),
      ∃ new, (speak_run st a t stt g tts).1.history = st.history ++ new)
    ∧ (∀ st : SpeakState, SpeakReachable st →
        optTruthy st.initialGreeting = true →
        st.history.head? = some ⟨"model", st.initialGreeting.getD ""⟩) :=
  ⟨fun st a t stt g tts => (speak_run_history_step st a t stt g tts).1,
   fun st h hg => (speak_reachable_invariant st h hg).2⟩

theorem history_append_only_and_greeting_first_witness :
    (∃ new, (speak_run (initSpeakState (some "Hi there!") true true)
        none (some "Hello") none ["Nice to meet you."] none).1.history
      = (initSpeakState (some "Hi there!") true true).history ++ new)
    ∧ (initSpeakState (some "Hi there!") true true).history.head?
        = some ⟨"model", ((initSpeakState (some "Hi there!") true true).initialGreeting).getD ""⟩ :=
  ⟨history_append_only_and_greeting_first.1 _ none (some "Hello") none
     ["Nice to meet you."] none,
   history_append_only_and_greeting_first.2 _
     (SpeakReachable.init (some "Hi there!") true true) rfl⟩
